import Mathlib

/-!
Verification development for the Angular reactive-forms integration test
suite, the `checkAndUpdateView` study note, and the component-styles
documentation example contained in this repository.

The repository ships the tests, a markdown summary of the framework's
change-detection pass, and one example component; the framework runtime
itself (FormControl / FormGroup state, value accessors, directive error
checks) is not part of the sources.  Where a claim is decided by that
missing runtime we model it from the specification and from the behavior
the tests pin down; every such definition carries a doc comment starting
with `Modelled from the spec:`.  Definitions such as `asyncValidator`,
`uniqLoginAsyncValidator` and `loginIsEmptyGroupValidator` are translated
directly from the test file `src/unnamed/part_000`.
-/

namespace AngularForms

/-- A JavaScript validation-errors object, e.g. `{'uniqLogin': true}`,
modelled as an association list from error keys to booleans. -/
def ValidationErrors : Type := List (String × Bool)

instance : DecidableEq ValidationErrors := by
  unfold ValidationErrors
  infer_instance

/-- What a synchronous validator function may return in JavaScript:
`null`, `undefined`, or an errors object.  Distinguishing `vNull` from
`vUndefined` matters because the test at `part_000:1800` pins down that
`undefined` is treated as success just like `null`. -/
inductive ValidatorReturn : Type
  | vNull : ValidatorReturn
  | vUndefined : ValidatorReturn
  | vErrors (e : ValidationErrors) : ValidatorReturn
deriving DecidableEq

/-- The `updateOn` option of a `FormControl` (`'change'` is the default). -/
inductive UpdateOn : Type
  | change : UpdateOn
  | blur : UpdateOn
  | submit : UpdateOn
deriving DecidableEq

/-- A control's validation status. -/
inductive Status : Type
  | VALID : Status
  | INVALID : Status
  | PENDING : Status
deriving DecidableEq

/-- The string the framework reports for a status, as asserted by the
tests (`expect(control.status).toBe('VALID')`). -/
def statusString : Status → String
  | Status.VALID => "VALID"
  | Status.INVALID => "INVALID"
  | Status.PENDING => "PENDING"

/-- The promise returned by the test helper `asyncValidator`
(`part_000:2695`): it resolves after `delay` milliseconds to `result`
(`null` on success, the error object on failure).  The result is fixed
at the moment the validator is invoked. -/
structure PromiseM : Type where
  delay : Nat
  result : Option ValidationErrors
deriving DecidableEq

/-- Normalization of a sync validator's return value, as pinned by the
test `should treat validators that return undefined as successful`
(`part_000:1800`): both `null` and `undefined` mean "no errors". -/
def normalizeValidatorReturn : ValidatorReturn → Option ValidationErrors
  | ValidatorReturn.vNull => none
  | ValidatorReturn.vUndefined => none
  | ValidatorReturn.vErrors e => some e

/-- Modelled from the spec: a reactive `FormControl` bound to a text
input, the framework-owned entity the tests instantiate
("FormControl/FormGroup/FormArray: framework-defined reactive form model
entities").  `value` is the model value, `validator` / `asyncValidator`
the registered callbacks, `pendingValue` / `pendingDirty` the view value
buffered while `updateOn` defers updates, and `asyncPending` the result
an in-flight async validation will deliver. -/
structure FormControlM : Type where
  value : String
  validator : Option (String → ValidatorReturn)
  asyncValidator : Option (String → PromiseM)
  updateOn : UpdateOn
  status : Status
  errors : Option ValidationErrors
  dirty : Bool
  touched : Bool
  pendingValue : String
  pendingDirty : Bool
  asyncPending : Option (Option ValidationErrors)

/-- Running a control's sync validator on a value: no validator means no
errors, otherwise the return value is normalized. -/
def runValidator (v : Option (String → ValidatorReturn)) (x : String) :
    Option ValidationErrors :=
  match v with
  | none => none
  | some f => normalizeValidatorReturn (f x)

/-- `true` exactly when the control's status is `VALID`. -/
def FormControlM.valid (c : FormControlM) : Bool :=
  match c.status with
  | Status.VALID => true
  | _ => false

/-- An emission on the control's `valueChanges` or `statusChanges`
observable. -/
inductive Emission : Type
  | val (v : String) : Emission
  | status (s : String) : Emission
deriving DecidableEq

/-- Modelled from the spec: the validation step of the framework's
`updateValueAndValidity`.  The sync validator runs first; when it
reports errors the control is `INVALID` and any in-flight async
validation is cancelled; only when it passes does the async validator
start, putting the control in `PENDING` with the async result scheduled. -/
def computeValidation (c : FormControlM) : FormControlM :=
  match runValidator c.validator c.value with
  | some e =>
      { c with errors := some e, status := Status.INVALID, asyncPending := none }
  | none =>
      match c.asyncValidator with
      | some af =>
          { c with errors := none, status := Status.PENDING,
                   asyncPending := some (af c.value).result }
      | none =>
          { c with errors := none, status := Status.VALID, asyncPending := none }

/-- Modelled from the spec: `updateValueAndValidity` recomputes errors
and status and, when `emitEvent` is set, emits the new value on
`valueChanges` followed by the new status on `statusChanges`. -/
def updateValueAndValidity (c : FormControlM) (emitEvent : Bool) :
    FormControlM × List Emission :=
  let c2 := computeValidation c
  (c2, if emitEvent then
         [Emission.val c2.value, Emission.status (statusString c2.status)]
       else [])

/-- Modelled from the spec: the async validation delay elapsing.  A
scheduled async result is applied to the control's errors and status and
a `statusChanges` emission is produced; with nothing in flight the
control is unchanged. -/
def resolveAsync (c : FormControlM) : FormControlM × List Emission :=
  match c.asyncPending with
  | none => (c, [])
  | some r =>
      let c2 : FormControlM :=
        { c with errors := r,
                 status := match r with
                           | some _ => Status.INVALID
                           | none => Status.VALID,
                 asyncPending := none }
      (c2, [Emission.status (statusString c2.status)])

/-- Modelled from the spec: `new FormControl(value, validator,
asyncValidator, {updateOn})` — the control starts pristine and
untouched, with the pending value equal to the value, and validation is
run once at construction without emitting events. -/
def newFormControl (v : String) (validator : Option (String → ValidatorReturn))
    (asyncV : Option (String → PromiseM)) (u : UpdateOn) : FormControlM :=
  computeValidation
    { value := v, validator := validator, asyncValidator := asyncV,
      updateOn := u, status := Status.VALID, errors := none,
      dirty := false, touched := false, pendingValue := v,
      pendingDirty := false, asyncPending := none }

/-- Modelled from the spec: a form control bound to a text `<input>`
element via the default value accessor, together with the log of
`valueChanges` / `statusChanges` emissions observed so far. -/
structure BoundInput : Type where
  control : FormControlM
  inputValue : String
  events : List Emission

/-- Modelled from the spec: a change-detection pass over the bound
input.  Model-to-view propagation writes the control's value into the
input element. -/
def detectChanges (s : BoundInput) : BoundInput :=
  { s with inputValue := s.control.value }

/-- Modelled from the spec: applying the buffered view value to the
model — the shared update step a deferred control performs on its
triggering blur or submit event: the pending value becomes the control
value, a buffered dirty mark is applied, and validation runs with
events emitted. -/
def applyPendingOn (s : BoundInput) : BoundInput :=
  let c0 := s.control
  let c1 : FormControlM :=
    { c0 with value := c0.pendingValue,
              dirty := c0.dirty || c0.pendingDirty,
              pendingDirty := false }
  let r := updateValueAndValidity c1 true
  { s with control := r.1, events := s.events ++ r.2 }

/-- Modelled from the spec: dispatching an `input` event carrying view
value `v`.  A default (`updateOn: 'change'`) control updates and
validates immediately, emitting events; a deferred (`blur`/`submit`)
control only buffers the value and a dirty mark, leaving value,
validity and dirtiness untouched. -/
def dispatchInput (v : String) (s : BoundInput) : BoundInput :=
  let s1 : BoundInput := { s with inputValue := v }
  match s1.control.updateOn with
  | UpdateOn.change =>
      let c1 : FormControlM :=
        { s1.control with value := v, pendingValue := v, dirty := true }
      let r := updateValueAndValidity c1 true
      { s1 with control := r.1, events := s1.events ++ r.2 }
  | _ =>
      { s1 with control :=
          { s1.control with pendingValue := v, pendingDirty := true } }

/-- Modelled from the spec: dispatching a `blur` event.  An
`updateOn: 'blur'` control applies its buffered value — but only when
that value actually changed, so an unchanged value emits nothing
(`part_000:1040`); every non-`submit` control is also marked touched. -/
def dispatchBlur (s : BoundInput) : BoundInput :=
  let s1 : BoundInput :=
    match s.control.updateOn with
    | UpdateOn.blur =>
        if s.control.pendingValue = s.control.value then s else applyPendingOn s
    | _ => s
  match s1.control.updateOn with
  | UpdateOn.submit => s1
  | _ => { s1 with control := { s1.control with touched := true } }

/-- Modelled from the spec: dispatching a `submit` event on the
enclosing form.  An `updateOn: 'submit'` control applies its buffered
value, again only when it changed (`part_000:1408`). -/
def dispatchSubmit (s : BoundInput) : BoundInput :=
  match s.control.updateOn with
  | UpdateOn.submit =>
      if s.control.pendingValue = s.control.value then s else applyPendingOn s
  | _ => s

/-- Modelled from the spec: programmatic `setValue` on the control —
the model value changes at once, validation runs with events emitted,
and the new value is propagated to the view immediately
(`part_000:496`). -/
def setValue (v : String) (s : BoundInput) : BoundInput :=
  let c1 : FormControlM := { s.control with value := v, pendingValue := v }
  let r := updateValueAndValidity c1 true
  { s with control := r.1, inputValue := v, events := s.events ++ r.2 }

/-- Translated from `asyncValidator` (`part_000:2695`): builds an async
validator from a checker, a timeout and an error object.  The resolved
value — `null` when the checker holds of the control at invocation
time, the error object otherwise — is fixed when the validator is
invoked, and delivery is delayed by `timeout`. -/
def asyncValidator (checker : FormControlM → Bool) (timeout : Nat)
    (error : ValidationErrors) (c : FormControlM) : PromiseM :=
  { delay := timeout, result := if checker c then none else some error }

/-- Translated from `uniqLoginAsyncValidator` (`part_000:2710`). -/
def uniqLoginAsyncValidator (expectedValue : String) (timeout : Nat)
    (c : FormControlM) : PromiseM :=
  asyncValidator (fun c => decide (c.value = expectedValue)) timeout
    [("uniqLogin", true)] c

/-- Modelled from the spec: `Validators.required`, the framework
validator the tests pass to `new FormControl` — an error
`{'required': true}` on the empty string, success otherwise. -/
def requiredValidator : String → ValidatorReturn :=
  fun s => if s = "" then ValidatorReturn.vErrors [("required", true)]
           else ValidatorReturn.vNull

/-- A `FormGroup` as the tests use it: a keyed collection of controls. -/
structure FormGroupM : Type where
  controls : List (String × FormControlM)

/-- Translated from `loginIsEmptyGroupValidator` (`part_000:2720`):
`c.controls['login'].value == '' ? {'loginIsEmpty': true} : null`.  The
outer `Option` models the JavaScript property access: `none` is the
`TypeError` raised when the group has no `'login'` control. -/
def loginIsEmptyGroupValidator (c : FormGroupM) :
    Option (Option ValidationErrors) :=
  (c.controls.lookup "login").map fun ctl =>
    if ctl.value = "" then some [("loginIsEmpty", true)] else none

end AngularForms

namespace CheckAndUpdateView

/-- The per-view change-detection state tracked by the framework; the
study note (`src/study-remark/checkAndUpdateView.md`) describes
`ViewState.firstCheck` being set on every pass.  `checked` records
whether the view "was already checked before". -/
structure ViewState : Type where
  firstCheck : Bool
  checked : Bool
deriving DecidableEq

/-- Which lifecycle hooks one `checkAndUpdateView` pass calls on the
view's child component instance. -/
structure LifecycleLog : Type where
  onInit : Bool
  doCheck : Bool
  afterContentInit : Bool
  afterContentChecked : Bool
  afterViewInit : Bool
  afterViewChecked : Bool
deriving DecidableEq

/-- Modelled from the spec: one `checkAndUpdateView` pass as the study
note describes it — `firstCheck` is set to `true` if the view is
checked for the first time and `false` if it was already checked
before; `ngDoCheck`, `AfterContentChecked` and `AfterViewChecked` run
on every pass, while `OnInit`, `AfterContentInit` and `AfterViewInit`
run only during the first check. -/
def checkAndUpdateView (v : ViewState) : ViewState × LifecycleLog :=
  let first := !v.checked
  ({ firstCheck := first, checked := true },
   { onInit := first, doCheck := true,
     afterContentInit := first, afterContentChecked := true,
     afterViewInit := first, afterViewChecked := true })

/-- A freshly created view: never checked yet. -/
def initialView : ViewState :=
  { firstCheck := false, checked := false }

/-- The state after `n` change-detection passes starting from a fresh
view, paired with the lifecycle log of the `n`-th pass (the log of pass
`0` is the first check's log). -/
def nthCheck : Nat → ViewState × LifecycleLog
  | 0 => checkAndUpdateView initialView
  | n + 1 => checkAndUpdateView (nthCheck n).1

end CheckAndUpdateView

namespace ComponentStyles

/-- Translated from `quest-summary.component.ts`: the class body is
empty — `export class QuestSummaryComponent { }` declares no fields, no
methods and no constructor. -/
structure QuestSummaryComponent : Type

/-- The slice of `@Component` metadata the example wires up. -/
structure ComponentMetadata : Type where
  selector : String
  templateUrl : String
  styleUrls : List String
deriving DecidableEq

/-- Translated from the `@Component({...})` decorator of
`quest-summary.component.ts`. -/
def questSummaryComponentMetadata : ComponentMetadata :=
  { selector := "app-quest-summary",
    templateUrl := "./quest-summary.component.html",
    styleUrls := ["./quest-summary.component.css"] }

end ComponentStyles

namespace DirectiveErrors

/-- Where a `formControlName` directive sits in the template: with no
control container at all, inside a template-driven `NgForm`, inside an
`NgModelGroup`, or under a proper `formGroup` directive. -/
inductive ControlNameParent : Type
  | standalone : ControlNameParent
  | insideNgForm : ControlNameParent
  | insideNgModelGroup : ControlNameParent
  | underFormGroup : ControlNameParent
deriving DecidableEq

/-- The value a template binds to the `formGroup` directive: an actual
`FormGroup` instance or anything else (e.g. `undefined`). -/
inductive FormGroupBinding : Type
  | aFormGroup (g : AngularForms.FormGroupM) : FormGroupBinding
  | notAFormGroup : FormGroupBinding

/-- `true` exactly when the bound value is a `FormGroup` instance. -/
def FormGroupBinding.isFormGroupInstance : FormGroupBinding → Bool
  | FormGroupBinding.aFormGroup _ => true
  | FormGroupBinding.notAFormGroup => false

/-- The error message thrown for a `formControlName` without a suitable
parent, as the tests at `part_000:2199` and `part_000:2214` pin it. -/
def controlParentMessage : String :=
  "formControlName must be used with a parent formGroup directive."

/-- The error message thrown for a `formControlName` inside an
`NgModelGroup`, as the test at `part_000:2230` pins it. -/
def ngModelGroupMessage : String :=
  "formControlName cannot be used with an ngModelGroup parent."

/-- The error message thrown when the `formGroup` directive is bound to
something that is not a `FormGroup`, as the test at `part_000:2192`
pins it. -/
def missingFormMessage : String :=
  "formGroup expects a FormGroup instance. Please pass one in."

/-- Modelled from the spec: the error the framework throws during the
first change-detection pass over a template using `formControlName`,
depending on the directive's parent ("error behaviors asserted in tests
(e.g., thrown errors for misuse of directives)"); `none` means no
error is thrown. -/
def formControlNameFirstCheckError : ControlNameParent → Option String
  | ControlNameParent.standalone => some controlParentMessage
  | ControlNameParent.insideNgForm => some controlParentMessage
  | ControlNameParent.insideNgModelGroup => some ngModelGroupMessage
  | ControlNameParent.underFormGroup => none

/-- Modelled from the spec: the error the framework throws during the
first change-detection pass over a `formGroup` directive, depending on
the bound value. -/
def formGroupFirstCheckError : FormGroupBinding → Option String
  | FormGroupBinding.aFormGroup _ => none
  | FormGroupBinding.notAFormGroup => some missingFormMessage

/-- Whether the first list is an initial segment of the second. -/
def charsStart : List Char → List Char → Bool
  | [], _ => true
  | _ :: _, [] => false
  | p :: ps, m :: ms => p == m && charsStart ps ms

/-- Whether the first list occurs as a contiguous segment of the
second. -/
def charsOccur (p : List Char) : List Char → Bool
  | [] => p.isEmpty
  | m :: ms => charsStart p (m :: ms) || charsOccur p ms

/-- `toThrowError(new RegExp(pat))` with a literal pattern succeeds
exactly when `pat` occurs as a substring of the thrown message:
`msgMatches pat msg` decides that occurrence. -/
def msgMatches (pat msg : String) : Bool :=
  charsOccur pat.data msg.data

/-- Whether change detection threw (`some` message) and the message
matches the literal pattern `pat`. -/
def thrownMatches (pat : String) : Option String → Bool
  | some m => msgMatches pat m
  | none => false

end DirectiveErrors

namespace AngularForms

/-- The state of the test `should work with single controls`
(`part_000:35`) right after creating `new FormControl('old value')` and
binding it to the input. -/
def changeBoundExample : BoundInput :=
  { control := newFormControl "old value" none none UpdateOn.change,
    inputValue := "", events := [] }

/-- The state of the test `should not update value or validity based on
user input until blur` (`part_000:830`) right after creating
`new FormControl('', {validators: Validators.required, updateOn:
'blur'})` and binding it. -/
def blurBoundExample : BoundInput :=
  { control := newFormControl "" (some requiredValidator) none UpdateOn.blur,
    inputValue := "", events := [] }

/-- The control of the test `should not emit valueChanges or
statusChanges on submit if value unchanged` (`part_000:1408`), bound to
its input. -/
def submitBoundExample : BoundInput :=
  { control := newFormControl "" (some requiredValidator) none UpdateOn.submit,
    inputValue := "", events := [] }

/-- The control of the test `async validator should not override result
of sync validator` (`part_000:2077`): `new FormControl('',
Validators.required, uniqLoginAsyncValidator('expected', 100))`. -/
def combinedExampleControl : FormControlM :=
  newFormControl "" (some requiredValidator)
    (some (fun v =>
      { delay := 100,
        result := if v = "expected" then none
                  else some [("uniqLogin", true)] }))
    UpdateOn.change

end AngularForms

namespace AngularForms

theorem computeValidation_value (c : FormControlM) :
    (computeValidation c).value = c.value := by
  unfold computeValidation
  cases h : runValidator c.validator c.value
  · cases c.asyncValidator <;> rfl
  · rfl

theorem computeValidation_updateOn (c : FormControlM) :
    (computeValidation c).updateOn = c.updateOn := by
  unfold computeValidation
  cases h : runValidator c.validator c.value
  · cases c.asyncValidator <;> rfl
  · rfl

theorem computeValidation_validator (c : FormControlM) :
    (computeValidation c).validator = c.validator := by
  unfold computeValidation
  cases h : runValidator c.validator c.value
  · cases c.asyncValidator <;> rfl
  · rfl

theorem computeValidation_dirty (c : FormControlM) :
    (computeValidation c).dirty = c.dirty := by
  unfold computeValidation
  cases h : runValidator c.validator c.value
  · cases c.asyncValidator <;> rfl
  · rfl

theorem computeValidation_errors (c : FormControlM) :
    (computeValidation c).errors = runValidator c.validator c.value := by
  unfold computeValidation
  cases h : runValidator c.validator c.value
  · cases c.asyncValidator <;> simp [h]
  · simp [h]

theorem computeValidation_of_syncError (c : FormControlM)
    (e : ValidationErrors) (h : runValidator c.validator c.value = some e) :
    (computeValidation c).status = Status.INVALID ∧
    (computeValidation c).asyncPending = none := by
  unfold computeValidation
  rw [h]
  exact ⟨rfl, rfl⟩

end AngularForms

open AngularForms CheckAndUpdateView ComponentStyles DirectiveErrors

/-- C1 counterexample: the claim quantifies over every `FormControl`
bound to a text input, but for the control of `part_000:830` — created
with `updateOn: 'blur'` — setting the input element's value to
`'Nancy'` and dispatching an `input` event does not update the
control's value (it stays `''`). -/
theorem C1_counterexample :
    (dispatchInput "Nancy" blurBoundExample).control.value ≠ "Nancy" := by
  decide

/-- C1 (amended to controls with the default `updateOn: 'change'`):
after change detection the input element's value equals the control's
value; dispatching an `input` event with element value `v` makes the
control's value `v`; and `setValue(v)` followed by change detection
makes the input element's value `v`. -/
theorem C1_theorem (s : BoundInput) (v : String)
    (h : s.control.updateOn = UpdateOn.change) :
    (detectChanges s).inputValue = s.control.value ∧
    (dispatchInput v s).control.value = v ∧
    (detectChanges (setValue v s)).inputValue = v := by
  refine ⟨rfl, ?_, ?_⟩
  · unfold dispatchInput
    simp [h, updateValueAndValidity, computeValidation_value]
  · unfold setValue detectChanges
    simp [updateValueAndValidity, computeValidation_value]

/-- C1 witness: the amended round trip at the state of the test
`should work with single controls` (`part_000:35`). -/
theorem C1_witness :
    (detectChanges changeBoundExample).inputValue =
      changeBoundExample.control.value ∧
    (dispatchInput "updated value" changeBoundExample).control.value =
      "updated value" ∧
    (detectChanges (setValue "updated value" changeBoundExample)).inputValue =
      "updated value" :=
  C1_theorem changeBoundExample "updated value" rfl

/-- C2 counterexample: for a `formControlName` inside an
`NgModelGroup`, the first change-detection pass throws
`'formControlName cannot be used with an ngModelGroup parent.'`
(pinned by the test at `part_000:2230`), which does not match the
claimed pattern `'formControlName must be used with a parent formGroup
directive'`. -/
theorem C2_counterexample :
    formControlNameFirstCheckError ControlNameParent.insideNgModelGroup =
      some ngModelGroupMessage ∧
    msgMatches "formControlName must be used with a parent formGroup directive"
      ngModelGroupMessage = false := by
  exact ⟨rfl, by decide⟩

/-- C2 (amended: the `NgModelGroup` case throws its own message): a
standalone `formControlName` and one inside `NgForm` throw an error
matching `'formControlName must be used with a parent formGroup
directive'` on the first change-detection pass; one inside an
`NgModelGroup` throws an error matching `'formControlName cannot be
used with an ngModelGroup parent'`; and a `formGroup` directive bound
to a value that is not a `FormGroup` instance throws an error matching
`'formGroup expects a FormGroup instance'`. -/
theorem C2_theorem (b : FormGroupBinding)
    (hb : b.isFormGroupInstance = false) :
    thrownMatches
      "formControlName must be used with a parent formGroup directive"
      (formControlNameFirstCheckError ControlNameParent.standalone) = true ∧
    thrownMatches
      "formControlName must be used with a parent formGroup directive"
      (formControlNameFirstCheckError ControlNameParent.insideNgForm) = true ∧
    thrownMatches
      "formControlName cannot be used with an ngModelGroup parent"
      (formControlNameFirstCheckError ControlNameParent.insideNgModelGroup) =
      true ∧
    thrownMatches
      "formGroup expects a FormGroup instance"
      (formGroupFirstCheckError b) = true := by
  cases b with
  | aFormGroup g => simp [FormGroupBinding.isFormGroupInstance] at hb
  | notAFormGroup =>
      refine ⟨by decide, by decide, by decide, by decide⟩

/-- C2 witness: the amended statement at the binding of the test
`should throw if a form is not passed into formGroup`
(`part_000:2192`), where the bound value is not a `FormGroup`. -/
theorem C2_witness :
    thrownMatches
      "formControlName must be used with a parent formGroup directive"
      (formControlNameFirstCheckError ControlNameParent.standalone) = true ∧
    thrownMatches
      "formControlName must be used with a parent formGroup directive"
      (formControlNameFirstCheckError ControlNameParent.insideNgForm) = true ∧
    thrownMatches
      "formControlName cannot be used with an ngModelGroup parent"
      (formControlNameFirstCheckError ControlNameParent.insideNgModelGroup) =
      true ∧
    thrownMatches
      "formGroup expects a FormGroup instance"
      (formGroupFirstCheckError FormGroupBinding.notAFormGroup) = true :=
  C2_theorem FormGroupBinding.notAFormGroup rfl

theorem nthCheck_checked (n : Nat) : (nthCheck n).1.checked = true := by
  cases n <;> rfl

/-- C3: in the documented `checkAndUpdateView` algorithm, `OnInit`,
`AfterContentInit` and `AfterViewInit` are called only during a view's
first check — a pass over an already-checked view calls none of the
three and leaves `firstCheck` false — while on the first check all
three are called and `firstCheck` is true. -/
theorem C3_theorem (v : ViewState) (n : Nat)
    (hv : v.checked = true) (hn : 1 ≤ n) :
    ((checkAndUpdateView v).2.onInit = false ∧
     (checkAndUpdateView v).2.afterContentInit = false ∧
     (checkAndUpdateView v).2.afterViewInit = false ∧
     (checkAndUpdateView v).1.firstCheck = false) ∧
    ((nthCheck 0).2.onInit = true ∧
     (nthCheck 0).2.afterContentInit = true ∧
     (nthCheck 0).2.afterViewInit = true ∧
     (nthCheck 0).1.firstCheck = true) ∧
    ((nthCheck n).2.onInit = false ∧
     (nthCheck n).2.afterContentInit = false ∧
     (nthCheck n).2.afterViewInit = false ∧
     (nthCheck n).1.firstCheck = false) := by
  refine ⟨?_, ⟨rfl, rfl, rfl, rfl⟩, ?_⟩
  · unfold checkAndUpdateView
    simp [hv]
  · obtain ⟨m, rfl⟩ : ∃ m, n = m + 1 := ⟨n - 1, (Nat.succ_pred_eq_of_pos hn).symm⟩
    simp [nthCheck, checkAndUpdateView, nthCheck_checked m]

/-- C3 witness: the second check of a fresh view calls none of the
three init hooks and leaves `firstCheck` false, while the first check
called all of them with `firstCheck` true. -/
theorem C3_witness :
    ((checkAndUpdateView { firstCheck := true, checked := true }).2.onInit =
       false ∧
     (checkAndUpdateView { firstCheck := true, checked := true
       }).2.afterContentInit = false ∧
     (checkAndUpdateView { firstCheck := true, checked := true
       }).2.afterViewInit = false ∧
     (checkAndUpdateView { firstCheck := true, checked := true
       }).1.firstCheck = false) ∧
    ((nthCheck 0).2.onInit = true ∧
     (nthCheck 0).2.afterContentInit = true ∧
     (nthCheck 0).2.afterViewInit = true ∧
     (nthCheck 0).1.firstCheck = true) ∧
    ((nthCheck 1).2.onInit = false ∧
     (nthCheck 1).2.afterContentInit = false ∧
     (nthCheck 1).2.afterViewInit = false ∧
     (nthCheck 1).1.firstCheck = false) :=
  C3_theorem { firstCheck := true, checked := true } 1 rfl (by decide)

/-- C4: the validator built by `asyncValidator(checker, timeout,
error)` produces a promise with the given delay whose resolved value is
`null` exactly when the checker held of the control at invocation time
and the error object otherwise; `uniqLoginAsyncValidator(expected)`
resolves to `null` exactly when the control's value equals `expected`,
and to `{'uniqLogin': true}` otherwise. -/
theorem C4_theorem (checker : FormControlM → Bool) (t : Nat)
    (err : ValidationErrors) (c : FormControlM) (expected : String) :
    (asyncValidator checker t err c).delay = t ∧
    (asyncValidator checker t err c).result =
      (if checker c then none else some err) ∧
    ((asyncValidator checker t err c).result = none ↔ checker c = true) ∧
    (uniqLoginAsyncValidator expected t c).delay = t ∧
    (uniqLoginAsyncValidator expected t c).result =
      (if c.value = expected then none else some [("uniqLogin", true)]) ∧
    ((uniqLoginAsyncValidator expected t c).result = none ↔
      c.value = expected) := by
  refine ⟨rfl, rfl, ?_, rfl, ?_, ?_⟩
  · unfold asyncValidator
    cases h : checker c <;> simp [h]
  · unfold uniqLoginAsyncValidator asyncValidator
    by_cases h : c.value = expected <;> simp [h]
  · unfold uniqLoginAsyncValidator asyncValidator
    by_cases h : c.value = expected <;> simp [h]

/-- C5: when the sync validator reports an error on the control's
current value, validation leaves the control invalid with no async
validation in flight, and the elapse of the async delay (which would
deliver the async validator's success) does not make it valid. -/
theorem C5_theorem (c : FormControlM) (v : String) (e : ValidationErrors)
    (he : runValidator c.validator v = some e) :
    (computeValidation { c with value := v }).valid = false ∧
    (computeValidation { c with value := v }).status = Status.INVALID ∧
    (computeValidation { c with value := v }).asyncPending = none ∧
    (resolveAsync (computeValidation { c with value := v })).1.valid =
      false := by
  have h : runValidator ({ c with value := v } : FormControlM).validator
      ({ c with value := v } : FormControlM).value = some e := he
  obtain ⟨hs, ha⟩ := computeValidation_of_syncError _ e h
  refine ⟨?_, hs, ha, ?_⟩
  · simp [FormControlM.valid, hs]
  · unfold resolveAsync
    rw [ha]
    simp [FormControlM.valid, hs]

/-- C5 witness: the control of the test `async validator should not
override result of sync validator` (`part_000:2077`) with its empty
value, where `Validators.required` fails. -/
theorem C5_witness :
    (computeValidation { combinedExampleControl with value := "" }).valid =
      false ∧
    (computeValidation { combinedExampleControl with value := "" }).status =
      Status.INVALID ∧
    (computeValidation { combinedExampleControl with value := ""
      }).asyncPending = none ∧
    (resolveAsync (computeValidation { combinedExampleControl with
      value := "" })).1.valid = false :=
  C5_theorem combinedExampleControl "" [("required", true)] rfl

/-- C6: for a control created with `updateOn: 'blur'`, dispatching an
`input` event with a new element value leaves the control's value,
status, errors, dirty state and emissions unchanged, and the next
`blur` event applies the latest pending input value, reruns the sync
validator on it, and marks the control dirty. -/
theorem C6_theorem (s : BoundInput) (v : String)
    (hu : s.control.updateOn = UpdateOn.blur) (hv : v ≠ s.control.value) :
    ((dispatchInput v s).control.value = s.control.value ∧
     (dispatchInput v s).control.status = s.control.status ∧
     (dispatchInput v s).control.errors = s.control.errors ∧
     (dispatchInput v s).control.dirty = s.control.dirty ∧
     (dispatchInput v s).events = s.events) ∧
    ((dispatchBlur (dispatchInput v s)).control.value = v ∧
     (dispatchBlur (dispatchInput v s)).control.errors =
       runValidator s.control.validator v ∧
     (dispatchBlur (dispatchInput v s)).control.dirty = true) := by
  have hin : dispatchInput v s =
      { control :=
          { s.control with pendingValue := v, pendingDirty := true },
        inputValue := v, events := s.events } := by
    simp [dispatchInput, hu]
  constructor
  · rw [hin]
    simp
  · rw [hin]
    simp [dispatchBlur, applyPendingOn, updateValueAndValidity, hu, hv,
          computeValidation_value, computeValidation_errors,
          computeValidation_updateOn, computeValidation_dirty,
          computeValidation_validator]

/-- C6 witness: the scenario of the test `should not update value or
validity based on user input until blur` (`part_000:830`) — typing
`'Nancy'` into the blur control's input, then blurring. -/
theorem C6_witness :
    ((dispatchInput "Nancy" blurBoundExample).control.value =
       blurBoundExample.control.value ∧
     (dispatchInput "Nancy" blurBoundExample).control.status =
       blurBoundExample.control.status ∧
     (dispatchInput "Nancy" blurBoundExample).control.errors =
       blurBoundExample.control.errors ∧
     (dispatchInput "Nancy" blurBoundExample).control.dirty =
       blurBoundExample.control.dirty ∧
     (dispatchInput "Nancy" blurBoundExample).events =
       blurBoundExample.events) ∧
    ((dispatchBlur (dispatchInput "Nancy" blurBoundExample)).control.value =
       "Nancy" ∧
     (dispatchBlur (dispatchInput "Nancy" blurBoundExample)).control.errors =
       runValidator blurBoundExample.control.validator "Nancy" ∧
     (dispatchBlur (dispatchInput "Nancy" blurBoundExample)).control.dirty =
       true) :=
  C6_theorem blurBoundExample "Nancy" rfl (by decide)

/-- C7: a `blur` or `submit` event dispatched while the control's
pending value equals its current value produces no `valueChanges` or
`statusChanges` emission. -/
theorem C7_theorem (s : BoundInput)
    (h : s.control.pendingValue = s.control.value) :
    (dispatchBlur s).events = s.events ∧
    (dispatchSubmit s).events = s.events := by
  constructor
  · unfold dispatchBlur
    cases hu : s.control.updateOn <;> simp [hu, h]
  · unfold dispatchSubmit
    cases hu : s.control.updateOn <;> simp [hu, h]

/-- C7 witness: the opening step of the tests at `part_000:1040` and
`part_000:1408` — a blur and a submit on the untouched controls, whose
pending values still equal their values, emit nothing. -/
theorem C7_witness :
    ((dispatchBlur submitBoundExample).events = submitBoundExample.events ∧
     (dispatchSubmit submitBoundExample).events =
       submitBoundExample.events) :=
  C7_theorem submitBoundExample rfl

/-- C8: for a `FormGroup` containing a `'login'` control,
`loginIsEmptyGroupValidator` returns `{'loginIsEmpty': true}` exactly
when the login control's value is the empty string, and `null`
otherwise. -/
theorem C8_theorem (c : FormGroupM) (ctl : FormControlM)
    (h : c.controls.lookup "login" = some ctl) :
    loginIsEmptyGroupValidator c =
      some (if ctl.value = "" then some [("loginIsEmpty", true)] else none) ∧
    (loginIsEmptyGroupValidator c = some (some [("loginIsEmpty", true)]) ↔
      ctl.value = "") := by
  unfold loginIsEmptyGroupValidator
  rw [h]
  constructor
  · rfl
  · by_cases hv : ctl.value = "" <;> simp [hv]

/-- C8 witness: the group `{'login': new FormControl('')}` of the group
validator tests — the login value is empty, so the validator reports
`{'loginIsEmpty': true}`. -/
theorem C8_witness :
    loginIsEmptyGroupValidator
      { controls := [("login", newFormControl "" none none UpdateOn.change)] } =
      some (if (newFormControl "" none none UpdateOn.change).value = ""
            then some [("loginIsEmpty", true)] else none) ∧
    (loginIsEmptyGroupValidator
      { controls :=
          [("login", newFormControl "" none none UpdateOn.change)] } =
        some (some [("loginIsEmpty", true)]) ↔
      (newFormControl "" none none UpdateOn.change).value = "") :=
  C8_theorem
    { controls := [("login", newFormControl "" none none UpdateOn.change)] }
    (newFormControl "" none none UpdateOn.change) rfl

/-- C9: a sync validator returning `undefined` on the control's current
value is treated as successful — a `FormControl` constructed with it
has status `'VALID'` and `null` errors after creation and change
detection. -/
theorem C9_theorem (f : String → ValidatorReturn) (v : String) (u : UpdateOn)
    (hf : f v = ValidatorReturn.vUndefined) :
    (detectChanges
      { control := newFormControl v (some f) none u,
        inputValue := "", events := [] }).control.status = Status.VALID ∧
    (detectChanges
      { control := newFormControl v (some f) none u,
        inputValue := "", events := [] }).control.errors = none := by
  have hr : runValidator (some f) v = none := by
    simp [runValidator, hf, normalizeValidatorReturn]
  unfold detectChanges newFormControl computeValidation
  simp [hr]

/-- C9 witness: the validator of the test at `part_000:1800`
(`control.value ?? undefined`), which returns `undefined` on the empty
control value. -/
theorem C9_witness :
    (detectChanges
      { control :=
          newFormControl ""
            (some (fun s => if s = "" then ValidatorReturn.vUndefined
                            else ValidatorReturn.vNull))
            none UpdateOn.change,
        inputValue := "", events := [] }).control.status = Status.VALID ∧
    (detectChanges
      { control :=
          newFormControl ""
            (some (fun s => if s = "" then ValidatorReturn.vUndefined
                            else ValidatorReturn.vNull))
            none UpdateOn.change,
        inputValue := "", events := [] }).control.errors = none :=
  C9_theorem
    (fun s => if s = "" then ValidatorReturn.vUndefined
              else ValidatorReturn.vNull)
    "" UpdateOn.change (by decide)

/-- C10: the documentation example component is trivial —
`QuestSummaryComponent` declares no members, so any two instances are
equal, and its component metadata wires exactly the selector
`app-quest-summary`, the template URL
`./quest-summary.component.html` and the single style URL
`./quest-summary.component.css`. -/
theorem C10_theorem :
    (∀ a b : QuestSummaryComponent, a = b) ∧
    questSummaryComponentMetadata.selector = "app-quest-summary" ∧
    questSummaryComponentMetadata.templateUrl =
      "./quest-summary.component.html" ∧
    questSummaryComponentMetadata.styleUrls =
      ["./quest-summary.component.css"] :=
  ⟨fun a b => by cases a; cases b; rfl, rfl, rfl, rfl⟩
